import Mathlib

/-
  Verification development for the diff_drive_controller of this repository
  (src/diff_drive_controller/src/diff_drive_controller.cpp).

  The controller source is embedded shallowly: doubles carrying possibly
  non-finite encoder readings are modelled by the inductive type Dbl with an
  explicit rational payload; times are rationals measured in seconds; the
  hardware the controller writes through its registered handles is an explicit
  record of per-wheel command buffers plus an operation mode.

  The SpeedLimiter and Odometry components live in source files that are not
  part of the reviewed sources (only diff_drive_controller.cpp and the
  joint_trajectory_controller header are given); they are modelled from the
  specification, as marked on each of their definitions.
-/

namespace DiffDrive

/-- Model of an IEEE double as used for encoder readings: either a finite
value with a rational payload, an infinity, or a NaN. -/
inductive Dbl where
  | fin (q : ℚ)
  | pinf
  | ninf
  | nan
deriving DecidableEq, Repr

/-- Mirrors std isnan: true exactly on the NaN value. Infinities are not NaN,
which is the behavioural point of claim C2. -/
def Dbl.isnan : Dbl → Bool
  | .nan => true
  | _ => false

/-- IEEE-style addition on the double model, used for the position
accumulation loop of DiffDriveController update. -/
def Dbl.add : Dbl → Dbl → Dbl
  | .nan, _ => .nan
  | _, .nan => .nan
  | .pinf, .ninf => .nan
  | .ninf, .pinf => .nan
  | .pinf, _ => .pinf
  | _, .pinf => .pinf
  | .ninf, _ => .ninf
  | _, .ninf => .ninf
  | .fin a, .fin b => .fin (a + b)

/-- IEEE-style division of a double by a natural count (the wheels-per-side
divisor of the position mean): division by zero sends 0 to NaN and a nonzero
finite value to a signed infinity, and specials divide to themselves. -/
def Dbl.divNat : Dbl → ℕ → Dbl
  | .fin q, 0 => if q = 0 then .nan else if 0 < q then .pinf else .ninf
  | x, 0 => x
  | .fin q, (n + 1) => .fin (q / (n + 1 : ℚ))
  | x, _ + 1 => x

/-- Modelled from the spec: the odometry estimator (odometry source file not
among the reviewed sources) consumes real-valued wheel position means; spec
section 4.3 requires its inputs to be finite, so the embedding of a
non-finite payload into the reals is immaterial to every claim and is fixed
to 0 here. -/
def Dbl.toRealLossy : Dbl → ℝ
  | .fin q => (q : ℝ)
  | _ => 0

/-- Clamp a rational to a closed interval, lower bound winning on an empty
interval, as the usual clamp of the limiter does. -/
def clampQ (x lo hi : ℚ) : ℚ := max lo (min hi x)

/-- Modelled from the spec: SpeedLimiter configuration (speed limiter source
file not among the reviewed sources); spec section 4.2: per-axis enable flags
and bounds for velocity, acceleration and jerk. -/
structure SpeedLimiter where
  hasVelocityLimits : Bool
  hasAccelerationLimits : Bool
  hasJerkLimits : Bool
  minVelocity : ℚ
  maxVelocity : ℚ
  minAcceleration : ℚ
  maxAcceleration : ℚ
  minJerk : ℚ
  maxJerk : ℚ
deriving DecidableEq, Repr

/-- A limiter configuration with every bound disabled, the default built from
the declared parameters of the controller. -/
def SpeedLimiter.noLimits (L : SpeedLimiter) : Bool :=
  !L.hasVelocityLimits && !L.hasAccelerationLimits && !L.hasJerkLimits

/-- Modelled from the spec: SpeedLimiter limit (speed limiter source file not
among the reviewed sources); spec section 4.2: apply jerk, then acceleration,
then velocity bounds to the candidate, seeded by the previous two limited
values and the elapsed time; a non-positive dt applies no limiting at all. -/
def SpeedLimiter.limit (L : SpeedLimiter) (v v0 v1 dt : ℚ) : ℚ :=
  if dt ≤ 0 then v
  else
    let vj :=
      if L.hasJerkLimits then
        v0 + (v0 - v1) + clampQ ((v - v0) - (v0 - v1)) (L.minJerk * dt * dt) (L.maxJerk * dt * dt)
      else v
    let va :=
      if L.hasAccelerationLimits then
        v0 + clampQ (vj - v0) (L.minAcceleration * dt) (L.maxAcceleration * dt)
      else vj
    if L.hasVelocityLimits then clampQ va L.minVelocity L.maxVelocity else va

/-- The Commands value of the controller: linear and angular speed plus the
stamp of the command, all handed over through the realtime buffer. -/
structure Commands where
  lin : ℚ
  ang : ℚ
  stamp : ℚ
deriving DecidableEq, Repr

/-- Zero-initialized Commands, as produced by the default constructor used at
configure time. -/
def Commands.zero : Commands := ⟨0, 0, 0⟩

/-- Modelled from the spec: state of the Odometry Estimator (odometry source
file not among the reviewed sources); spec sections 3 and 4.3: accumulated
Pose2D, rolling-window velocity estimate with its sample windows, the
previous wheel positions used to form incremental travel, the time of the
last update, and the wheel kinematic parameters installed at configure. -/
structure Odometry where
  x : ℝ
  y : ℝ
  heading : ℝ
  linear : ℝ
  angular : ℝ
  linBuf : List ℝ
  angBuf : List ℝ
  rollingWindowSize : ℕ
  leftWheelOldPos : ℝ
  rightWheelOldPos : ℝ
  timestamp : ℝ
  wheelSeparation : ℝ
  leftWheelRadius : ℝ
  rightWheelRadius : ℝ

/-- Push a velocity sample into a rolling window of at most n samples. -/
def pushSample (buf : List ℝ) (n : ℕ) (v : ℝ) : List ℝ := (v :: buf).take n

/-- Mean of the samples of a rolling window (0 for the empty window). -/
noncomputable def rollingMean (buf : List ℝ) : ℝ := buf.sum / buf.length

section OdometryDefs

open Classical

/-- Modelled from the spec: arc integration of a linear and angular
displacement into the pose, spec section 4.3: heading advances by the
angular displacement, the position advances along the straight line when the
angular displacement is zero and along the exact circular arc otherwise. -/
noncomputable def Odometry.integrate (o : Odometry) (linD angD : ℝ) : Odometry :=
  if angD = 0 then
    { o with
      x := o.x + linD * Real.cos o.heading
      y := o.y + linD * Real.sin o.heading }
  else
    let heading2 := o.heading + angD
    let r := linD / angD
    { o with
      x := o.x + r * (Real.sin heading2 - Real.sin o.heading)
      y := o.y - r * (Real.cos heading2 - Real.cos o.heading)
      heading := heading2 }

/-- Modelled from the spec: update of the rolling-window velocity estimate
with one linear and one angular sample, spec section 3 VelocityEstimate. -/
noncomputable def Odometry.pushVelocity (o : Odometry) (lin ang : ℝ) : Odometry :=
  let lb := pushSample o.linBuf o.rollingWindowSize lin
  let ab := pushSample o.angBuf o.rollingWindowSize ang
  { o with linBuf := lb, angBuf := ab, linear := rollingMean lb, angular := rollingMean ab }

/-- Modelled from the spec: updateOpenLoop of the Odometry Estimator, spec
section 4.3: integrates the unicycle model directly from the last limited
command over the elapsed time and feeds the command into the velocity
estimate. -/
noncomputable def Odometry.updateOpenLoop (o : Odometry) (lin ang now : ℝ) : Odometry :=
  let dt := now - o.timestamp
  { (o.integrate (lin * dt) (ang * dt)).pushVelocity lin ang with timestamp := now }

/-- Modelled from the spec: closed-loop update of the Odometry Estimator,
spec section 4.3: converts the mean incremental wheel travel of each side
into linear and angular displacement using the wheel separation and per-side
radii, integrates the arc, refreshes the stored wheel positions and feeds
displacement over elapsed time into the velocity estimate. -/
noncomputable def Odometry.updateFromWheels (o : Odometry) (leftMean rightMean now : ℝ) :
    Odometry :=
  let dt := now - o.timestamp
  let leftTravel := (leftMean - o.leftWheelOldPos) * o.leftWheelRadius
  let rightTravel := (rightMean - o.rightWheelOldPos) * o.rightWheelRadius
  let linD := (leftTravel + rightTravel) / 2
  let angD := (rightTravel - leftTravel) / o.wheelSeparation
  { (o.integrate linD angD).pushVelocity (linD / dt) (angD / dt) with
    leftWheelOldPos := leftMean
    rightWheelOldPos := rightMean
    timestamp := now }

/-- Modelled from the spec: resetOdometry, spec section 4.3: zeroes the
Pose2D and the velocity estimate (estimate values and their sample
windows). -/
def Odometry.resetOdometry (o : Odometry) : Odometry :=
  { o with x := 0, y := 0, heading := 0, linear := 0, angular := 0, linBuf := [], angBuf := [] }

/-- Modelled from the spec: configuration-time setter for the wheel kinematic
parameters of the estimator. -/
def Odometry.setWheelParams (o : Odometry) (sep lr rr : ℝ) : Odometry :=
  { o with wheelSeparation := sep, leftWheelRadius := lr, rightWheelRadius := rr }

/-- Modelled from the spec: configuration-time setter for the rolling window
size of the velocity estimate. -/
def Odometry.setVelocityRollingWindowSize (o : Odometry) (n : ℕ) : Odometry :=
  { o with rollingWindowSize := n }

end OdometryDefs

/-- Primary lifecycle states of the hosting lifecycle node; the controller
only ever compares the current id against PRIMARY STATE ACTIVE. -/
inductive PrimaryState where
  | unconfigured
  | inactive
  | active
  | finalized
deriving DecidableEq, Repr

/-- Hardware operation mode written through the registered operation mode
handles. -/
inductive OpMode where
  | active
  | inactive
deriving DecidableEq, Repr

/-- Return value of update: CONTROLLER INTERFACE RET SUCCESS or ERROR. -/
inductive Ret where
  | success
  | error
deriving DecidableEq, Repr

/-- Lifecycle callback return values. -/
inductive CallbackReturn where
  | success
  | failure
  | error
deriving DecidableEq, Repr

/-- Which side of the drive a wheel belongs to. -/
inductive Side where
  | left
  | right
deriving DecidableEq, Repr

/-- Observable events of one control cycle, recorded in source order: the
odometry update, the read of the command channel, each wheel command write,
and the operation mode write. -/
inductive Ev where
  | odomUpdate
  | cmdRead
  | wheelWrite (side : Side) (index : ℕ)
  | opModeSet
deriving DecidableEq, Repr

/-- True exactly on wheel command write events. -/
def Ev.isWheelWrite : Ev → Bool
  | .wheelWrite _ _ => true
  | _ => false

/-- Raw wheel parameters of the controller: base separation and radius, the
three calibration multipliers, and the number of wheels per side fixed at
configure time. -/
structure WheelParams where
  separation : ℚ
  radius : ℚ
  separationMultiplier : ℚ
  leftRadiusMultiplier : ℚ
  rightRadiusMultiplier : ℚ
  wheelsPerSide : ℕ
deriving DecidableEq, Repr

/-- Odometry-related flags of the controller. -/
structure OdomParams where
  openLoop : Bool
  enableOdomTf : Bool
deriving DecidableEq, Repr

/-- The hardware the controller reaches through its handles: one command
buffer and one position reading per wheel on each side, indexed in handle
order, plus the operation mode. The buffers outlive the controller's
handles, so a released handle leaves its last written command in place. -/
structure HwState where
  leftCmd : List ℚ
  rightCmd : List ℚ
  leftPos : List Dbl
  rightPos : List Dbl
  opMode : OpMode
deriving DecidableEq, Repr

/-- State of the DiffDriveController: the registered handle counts stand for
the registered left and right wheel handle vectors and the operation mode
handle vector (handle index i reaches hardware slot i); the command buffer
field is the realtime buffer read from the cycle. -/
structure State where
  lifecycle : PrimaryState
  wheelParams : WheelParams
  odomParams : OdomParams
  odometry : Odometry
  regLeft : ℕ
  regRight : ℕ
  regOp : ℕ
  subscriberActive : Bool
  commandBuffer : Commands
  last0Cmd : Commands
  last1Cmd : Commands
  previousUpdateTimestamp : ℚ
  cmdVelTimeout : ℚ
  isHalted : Bool
  limiterLinear : SpeedLimiter
  limiterAngular : SpeedLimiter
  hw : HwState

/-- Write the value v into the first n slots of a command buffer list, the
effect of iterating set over the handles of one side. -/
def writeFirst (v : ℚ) : List ℚ → ℕ → List ℚ
  | l, 0 => l
  | [], _ + 1 => []
  | _ :: t, n + 1 => v :: writeFirst v t n

/-- Effect of set op mode: every registered operation mode handle is set to
the mode, so the hardware mode changes exactly when at least one operation
mode handle is registered. -/
def setOpModeVal (regOp : ℕ) (current mode : OpMode) : OpMode :=
  if regOp = 0 then current else mode

/-- DiffDriveController halt: write a zero velocity command through every
registered wheel handle of both sides, then set operation mode ACTIVE. -/
def halt (s : State) : State :=
  { s with hw :=
    { s.hw with
      leftCmd := writeFirst 0 s.hw.leftCmd s.regLeft
      rightCmd := writeFirst 0 s.hw.rightCmd s.regRight
      opMode := setOpModeVal s.regOp s.hw.opMode .active } }

/-- DiffDriveController reset: reset the odometry, clear the registered
wheel and operation mode handles, deactivate the subscriber, release the
publishers (external transport, not part of the model) and clear the halted
flag; it always reports success. -/
def reset (s : State) : State :=
  { s with
    odometry := s.odometry.resetOdometry
    regLeft := 0
    regRight := 0
    regOp := 0
    subscriberActive := false
    isHalted := false }

/-- DiffDriveController on activate: clears the halted flag and marks the
command ingestion subscriber live (publisher activation is external
transport). -/
def on_activate (s : State) : CallbackReturn × State :=
  (.success, { s with isHalted := false, subscriberActive := true })

/-- DiffDriveController on deactivate: halts, then deactivates the
subscriber (publisher deactivation is external transport). It does not touch
the odometry. -/
def on_deactivate (s : State) : CallbackReturn × State :=
  (.success, { halt s with subscriberActive := false })

/-- DiffDriveController on cleanup: halt, then reset. -/
def on_cleanup (s : State) : CallbackReturn × State :=
  (.success, reset (halt s))

/-- DiffDriveController on error: reset only; the source does not halt on
this path. -/
def on_error (s : State) : CallbackReturn × State :=
  (.success, reset s)

/-- DiffDriveController on shutdown: halt, then reset. -/
def on_shutdown (s : State) : CallbackReturn × State :=
  (.success, reset (halt s))

/-- Events of one halt call: a zero write through every registered wheel
handle of both sides, then the operation mode write. -/
def haltEvents (s : State) : List Ev :=
  (List.range s.regLeft).map (Ev.wheelWrite .left) ++
    (List.range s.regRight).map (Ev.wheelWrite .right) ++ [.opModeSet]

/-- Events of the wheel write loop of one active cycle: the source writes
the left and then the right wheel command at each handle index below the
wheels-per-side count. -/
def writeCycleEvents (n : ℕ) : List Ev :=
  (List.range n).flatMap fun i => [.wheelWrite .left i, .wheelWrite .right i]

/-- The position accumulation loop of update: starting from zero sums, read
the left and right position at each handle index below n, abort with none as
soon as either reading is NaN (the std isnan guard of the source), else
accumulate both. -/
def sumPositions (left right : List Dbl) : ℕ → Option (Dbl × Dbl)
  | 0 => some (.fin 0, .fin 0)
  | n + 1 =>
    match sumPositions left right n with
    | none => none
    | some (sl, sr) =>
      let l := left.getD n (.fin 0)
      let r := right.getD n (.fin 0)
      if l.isnan || r.isnan then none else some (sl.add l, sr.add r)

/-- The per-side position means of one closed-loop cycle: the accumulated
sums divided by the wheels-per-side count, or none when the NaN guard
fired. -/
def readMeans (left right : List Dbl) (n : ℕ) : Option (Dbl × Dbl) :=
  (sumPositions left right n).map fun p => (p.1.divNat n, p.2.divNat n)

/-- The stale-command brake of update: if the time since the command stamp
exceeds the timeout, substitute zero linear and angular values for this
cycle (the stamp and the stored command are untouched). -/
def staleZeroed (now : ℚ) (c : Commands) (timeout : ℚ) : Commands :=
  if now - c.stamp > timeout then { c with lin := 0, ang := 0 } else c

/-- The command a cycle actually applies: the command channel value after
the stale-command brake, each axis passed through its SpeedLimiter seeded by
the two previously retained limited commands and the elapsed time since the
previous cycle. -/
def limitedCommand (now : ℚ) (s : State) : Commands :=
  let currCmd := staleZeroed now s.commandBuffer s.cmdVelTimeout
  let updateDt := now - s.previousUpdateTimestamp
  { currCmd with
    lin := s.limiterLinear.limit currCmd.lin s.last0Cmd.lin s.last1Cmd.lin updateDt
    ang := s.limiterAngular.limit currCmd.ang s.last0Cmd.ang s.last1Cmd.ang updateDt }

/-- DiffDriveController update, embedded from the source with its event
trace: outside the active lifecycle state it halts once (guarded by the
halted flag) and returns success; in the active state it recomputes the
effective kinematic parameters, updates the odometry (open loop from the
last limited command, closed loop from the wheel position means, aborting
with an error on a NaN reading before any state change), reads the command
channel, applies the stale-command brake and the limiters, mixes the wheel
velocities, writes every wheel handle, sets operation mode ACTIVE and shifts
the retained command history. Message publication is external transport
excluded by the spec and is not modelled. -/
noncomputable def update (now : ℚ) (s : State) : Ret × State × List Ev :=
  if s.lifecycle ≠ .active then
    if s.isHalted then (.success, s, [])
    else (.success, { halt s with isHalted := true }, haltEvents s)
  else
    let wheelSeparation := s.wheelParams.separationMultiplier * s.wheelParams.separation
    let leftWheelRadius := s.wheelParams.leftRadiusMultiplier * s.wheelParams.radius
    let rightWheelRadius := s.wheelParams.rightRadiusMultiplier * s.wheelParams.radius
    let odomStep : Option Odometry :=
      if s.odomParams.openLoop then
        some (s.odometry.updateOpenLoop s.last0Cmd.lin s.last0Cmd.ang now)
      else
        match readMeans s.hw.leftPos s.hw.rightPos s.wheelParams.wheelsPerSide with
        | none => none
        | some (lm, rm) => some (s.odometry.updateFromWheels lm.toRealLossy rm.toRealLossy now)
    match odomStep with
    | none => (.error, s, [])
    | some odom2 =>
      let limitedCmd := limitedCommand now s
      let velocityLeft := (limitedCmd.lin - limitedCmd.ang * wheelSeparation / 2) / leftWheelRadius
      let velocityRight := (limitedCmd.lin + limitedCmd.ang * wheelSeparation / 2) / rightWheelRadius
      let hw2 :=
        { s.hw with
          leftCmd := writeFirst velocityLeft s.hw.leftCmd s.wheelParams.wheelsPerSide
          rightCmd := writeFirst velocityRight s.hw.rightCmd s.wheelParams.wheelsPerSide
          opMode := setOpModeVal s.regOp s.hw.opMode .active }
      (.success,
        { s with
          odometry := odom2
          hw := hw2
          last1Cmd := s.last0Cmd
          last0Cmd := limitedCmd
          previousUpdateTimestamp := now },
        [.odomUpdate, .cmdRead] ++ writeCycleEvents s.wheelParams.wheelsPerSide ++ [.opModeSet])

/-- The parameters read by on configure from the parameter interface. The
eighteen per-axis limiter parameters are grouped into the two SpeedLimiter
records they construct. -/
structure ConfigParams where
  leftWheelNames : List String
  rightWheelNames : List String
  writeOpModes : List String
  wheelSeparation : ℚ
  wheelRadius : ℚ
  wheelSeparationMultiplier : ℚ
  leftWheelRadiusMultiplier : ℚ
  rightWheelRadiusMultiplier : ℚ
  openLoop : Bool
  enableOdomTf : Bool
  cmdVelTimeout : ℚ
  velocityRollingWindowSize : ℕ
  limiterLinear : SpeedLimiter
  limiterAngular : SpeedLimiter

/-- Modelled from the spec: kinematic-parameter discovery from the robot
description document is an external collaborator excluded from the core
(spec section 1), so the model records only whether the description
parameter is retrievable and the separation and radius values a successful
discovery would produce for the two queried wheel names (none when the
joints or a usable collision geometry are missing). -/
structure UrdfEnv where
  hasDescription : Bool
  sepFromUrdf : Option ℚ
  radFromUrdf : Option ℚ

/-- The robot hardware on configure resolves handles against: whether the
weak pointer can be locked, and the joint names for which state, command and
operation mode handles exist. -/
structure RobotHw where
  available : Bool
  stateJoints : List String
  cmdJoints : List String
  opModes : List String

/-- Outcome of on configure: a callback return-with-state on the defined
paths, or the explicit marker for the undefined indexing of element 0 of an
empty wheel name list, which in the source is an unchecked vector
subscript. -/
inductive CfgOutcome where
  | success (s : State)
  | failure
  | error
  | ubEmptyWheelList

/-- True exactly on the success outcome. -/
def CfgOutcome.isSuccess : CfgOutcome → Bool
  | .success _ => true
  | _ => false

/-- The configured state of a success outcome. -/
def CfgOutcome.state? : CfgOutcome → Option State
  | .success s => some s
  | _ => none

/-- DiffDriveController set odom params from urdf: nothing to do when
neither value is missing; otherwise fail if the robot description is not
retrievable, then resolve the missing separation and then the missing
radius, failing if discovery yields nothing. -/
def set_odom_params_from_urdf (env : UrdfEnv) (lookupWheelSeparation lookupWheelRadius : Bool)
    (wp : WheelParams) : Option WheelParams :=
  if !(lookupWheelSeparation || lookupWheelRadius) then some wp
  else if !env.hasDescription then none
  else
    let afterSep : Option WheelParams :=
      if lookupWheelSeparation then
        match env.sepFromUrdf with
        | none => none
        | some d => some { wp with separation := d }
      else some wp
    match afterSep with
    | none => none
    | some wp1 =>
      if lookupWheelRadius then
        match env.radFromUrdf with
        | none => none
        | some r => some { wp1 with radius := r }
      else some wp1

/-- DiffDriveController configure side: error on an empty wheel name list,
failure as soon as a state or command handle cannot be resolved for a
wheel name, success otherwise. -/
def configure_side (wheelNames : List String) (hw : RobotHw) : CallbackReturn :=
  if wheelNames = [] then .error
  else if wheelNames.all fun n => hw.stateJoints.contains n && hw.cmdJoints.contains n then
    .success
  else .failure

/-- DiffDriveController on configure, embedded from the source in its
original order: reset, read parameters, compute the missing-value flags,
index element 0 of both wheel name lists for the urdf resolution call (an
unchecked subscript, surfaced as the ub outcome when a list is empty),
resolve missing values from the description, install wheel parameters and
limiters, check the size match of the name lists, lock the hardware and
resolve the wheel and operation mode handles, check the registered handle
vectors are non-empty, zero the command memory, record the clock and set
operation mode INACTIVE. There is no positivity validation of the resolved
kinematic values anywhere on this path. -/
noncomputable def on_configure (p : ConfigParams) (env : UrdfEnv) (hw : RobotHw) (now : ℚ)
    (s : State) : CfgOutcome :=
  let s1 := reset s
  let wpRaw : WheelParams :=
    { separation := p.wheelSeparation
      radius := p.wheelRadius
      separationMultiplier := p.wheelSeparationMultiplier
      leftRadiusMultiplier := p.leftWheelRadiusMultiplier
      rightRadiusMultiplier := p.rightWheelRadiusMultiplier
      wheelsPerSide := s1.wheelParams.wheelsPerSide }
  let wheelSeparationMissing : Bool := p.wheelSeparation == 0
  let wheelRadiusMissing : Bool := p.wheelRadius == 0
  match p.leftWheelNames.head?, p.rightWheelNames.head? with
  | none, _ => .ubEmptyWheelList
  | _, none => .ubEmptyWheelList
  | some _, some _ =>
    match set_odom_params_from_urdf env wheelSeparationMissing wheelRadiusMissing wpRaw with
    | none => .failure
    | some wp1 =>
      let wheelSeparation := wp1.separationMultiplier * wp1.separation
      let leftWheelRadius := wp1.leftRadiusMultiplier * wp1.radius
      let rightWheelRadius := wp1.rightRadiusMultiplier * wp1.radius
      let odom1 :=
        ((s1.odometry.setWheelParams (wheelSeparation : ℝ) (leftWheelRadius : ℝ)
          (rightWheelRadius : ℝ)).setVelocityRollingWindowSize p.velocityRollingWindowSize)
      if p.leftWheelNames.length ≠ p.rightWheelNames.length then .error
      else if !hw.available then .error
      else
        let leftResult := configure_side p.leftWheelNames hw
        let rightResult := configure_side p.rightWheelNames hw
        if leftResult = .failure ∨ rightResult = .failure then .failure
        else if !(p.writeOpModes.all fun n => hw.opModes.contains n) then .failure
        else
          let regLeft := p.leftWheelNames.length
          let regRight := p.rightWheelNames.length
          let regOp := p.writeOpModes.length
          if regLeft = 0 ∨ regRight = 0 ∨ regOp = 0 then .error
          else
            .success
              { s1 with
                wheelParams := { wp1 with wheelsPerSide := regLeft }
                odomParams := { openLoop := p.openLoop, enableOdomTf := p.enableOdomTf }
                odometry := odom1
                regLeft := regLeft
                regRight := regRight
                regOp := regOp
                commandBuffer := Commands.zero
                last0Cmd := Commands.zero
                last1Cmd := Commands.zero
                previousUpdateTimestamp := now
                cmdVelTimeout := p.cmdVelTimeout
                limiterLinear := p.limiterLinear
                limiterAngular := p.limiterAngular
                hw := { s1.hw with opMode := setOpModeVal regOp s1.hw.opMode .inactive } }

/-- The effective separation a configured state would use, exposed for the
statements about configure: multiplier times stored separation. -/
def cfgResolvedSeparation (c : CfgOutcome) : Option ℚ :=
  c.state?.map fun s => s.wheelParams.separationMultiplier * s.wheelParams.separation

/-- The effective left wheel radius of a configured state. -/
def cfgResolvedLeftRadius (c : CfgOutcome) : Option ℚ :=
  c.state?.map fun s => s.wheelParams.leftRadiusMultiplier * s.wheelParams.radius

/-- The effective right wheel radius of a configured state. -/
def cfgResolvedRightRadius (c : CfgOutcome) : Option ℚ :=
  c.state?.map fun s => s.wheelParams.rightRadiusMultiplier * s.wheelParams.radius

/-- An odometry state at the origin with zero estimates, used by the
concrete states of the witnesses. -/
def odomZero : Odometry :=
  { x := 0, y := 0, heading := 0, linear := 0, angular := 0, linBuf := [], angBuf := []
    rollingWindowSize := 10, leftWheelOldPos := 0, rightWheelOldPos := 0, timestamp := 0
    wheelSeparation := 1, leftWheelRadius := 1, rightWheelRadius := 1 }

/-- A limiter with every bound disabled, the default parameter values. -/
def limiterOff : SpeedLimiter :=
  { hasVelocityLimits := false, hasAccelerationLimits := false, hasJerkLimits := false
    minVelocity := 0, maxVelocity := 0, minAcceleration := 0, maxAcceleration := 0
    minJerk := 0, maxJerk := 0 }

/-- A concrete configured one-wheel-per-side controller state used as the
base of the witnesses and counterexamples: active, closed loop, one wheel
handle per side, one operation mode handle, zero command memory. -/
def baseState : State :=
  { lifecycle := .active
    wheelParams :=
      { separation := 1, radius := 1, separationMultiplier := 1, leftRadiusMultiplier := 1
        rightRadiusMultiplier := 1, wheelsPerSide := 1 }
    odomParams := { openLoop := false, enableOdomTf := false }
    odometry := odomZero
    regLeft := 1
    regRight := 1
    regOp := 1
    subscriberActive := true
    commandBuffer := Commands.zero
    last0Cmd := Commands.zero
    last1Cmd := Commands.zero
    previousUpdateTimestamp := 0
    cmdVelTimeout := 1/2
    isHalted := false
    limiterLinear := limiterOff
    limiterAngular := limiterOff
    hw :=
      { leftCmd := [0], rightCmd := [0], leftPos := [.fin 0], rightPos := [.fin 0]
        opMode := .inactive } }

/-- A state whose single registered left wheel still carries a nonzero
hardware command. -/
def nonzeroCmdState : State :=
  { baseState with hw := { baseState.hw with leftCmd := [5] } }

/-- A closed-loop state whose left encoder reads NaN. -/
def nanReadingState : State :=
  { baseState with hw := { baseState.hw with leftPos := [.nan] } }

/-- A closed-loop state whose left encoder reads positive infinity: a
non-finite value that is not NaN. -/
def infReadingState : State :=
  { baseState with hw := { baseState.hw with leftPos := [.pinf] } }

/-- A state whose odometry sits away from the origin. -/
def poseOneState : State :=
  { baseState with odometry := { odomZero with x := 1 } }

/-- A state outside the active lifecycle state, not yet halted, with stale
nonzero hardware commands. -/
def inactiveState : State :=
  { baseState with
    lifecycle := .inactive
    hw := { baseState.hw with leftCmd := [3], rightCmd := [4] } }

/-- A linear limiter with only acceleration bounds enabled. -/
def accelOnlyLimiter (minAcc maxAcc : ℚ) : SpeedLimiter :=
  { limiterOff with
    hasAccelerationLimits := true, minAcceleration := minAcc, maxAcceleration := maxAcc }

/-- An open-loop active state whose stored command is stale (stamp 0, read
at time 10 against a timeout of one half) while the linear acceleration
limiter is enabled and the previous limited command was 5: the zeroed stale
command is reshaped to 4 by the braking bound. -/
def staleAccelState : State :=
  { baseState with
    odomParams := { openLoop := true, enableOdomTf := false }
    commandBuffer := { lin := 9, ang := 0, stamp := 0 }
    previousUpdateTimestamp := 9
    last0Cmd := { lin := 5, ang := 0, stamp := 0 }
    last1Cmd := { lin := 5, ang := 0, stamp := 0 }
    limiterLinear := accelOnlyLimiter (-1) 1 }

/-- A second stale open-loop state with acceleration limiting, previous
limited command 10 and braking bound 2 per second: the zeroed stale command
is reshaped to 8, which is what gets shifted into the retained history. -/
def staleAccelState2 : State :=
  { baseState with
    odomParams := { openLoop := true, enableOdomTf := false }
    commandBuffer := { lin := 42, ang := 0, stamp := 0 }
    previousUpdateTimestamp := 9
    last0Cmd := { lin := 10, ang := 0, stamp := 0 }
    last1Cmd := { lin := 10, ang := 0, stamp := 0 }
    limiterLinear := accelOnlyLimiter (-2) 2 }

/-- The mixer scenario state: separation one half, radius one tenth, fresh
command linear 1, angular 0. -/
def mixStateA : State :=
  { baseState with
    wheelParams := { baseState.wheelParams with separation := 1/2, radius := 1/10 }
    commandBuffer := { lin := 1, ang := 0, stamp := 0 } }

/-- The second mixer scenario state: same parameters, fresh command linear
0, angular 1. -/
def mixStateB : State :=
  { mixStateA with commandBuffer := { lin := 0, ang := 1, stamp := 0 } }

/-- A robot hardware with handles for the two test wheels and one operation
mode. -/
def hwOk : RobotHw :=
  { available := true
    stateJoints := ["wheel_left", "wheel_right"]
    cmdJoints := ["wheel_left", "wheel_right"]
    opModes := ["motor"] }

/-- A urdf environment whose robot description is not retrievable. -/
def envNone : UrdfEnv := { hasDescription := false, sepFromUrdf := none, radFromUrdf := none }

/-- Configure parameters with a negative (hence not unset) wheel separation
and a positive radius: no urdf lookup is triggered and no positivity check
exists, so configure succeeds with a negative resolved separation. -/
def cfgNegSep : ConfigParams :=
  { leftWheelNames := ["wheel_left"]
    rightWheelNames := ["wheel_right"]
    writeOpModes := ["motor"]
    wheelSeparation := -1
    wheelRadius := 1/10
    wheelSeparationMultiplier := 1
    leftWheelRadiusMultiplier := 1
    rightWheelRadiusMultiplier := 1
    openLoop := false
    enableOdomTf := false
    cmdVelTimeout := 1/2
    velocityRollingWindowSize := 10
    limiterLinear := limiterOff
    limiterAngular := limiterOff }

/-- Configure parameters with an unset (zero) radius, forcing a urdf lookup. -/
def cfgZeroRad : ConfigParams := { cfgNegSep with wheelRadius := 0 }

/-- Configure parameters with strictly positive kinematic values. -/
def cfgPos : ConfigParams := { cfgNegSep with wheelSeparation := 1/2 }

/-- Configure parameters with an empty left wheel name list. -/
def cfgEmptyLeft : ConfigParams := { cfgNegSep with leftWheelNames := [] }

/-- Writing a value into the first n slots leaves the value readable at
every index below both n and the buffer length. -/
theorem writeFirst_getD (v d : ℚ) :
    ∀ (l : List ℚ) (n i : ℕ), i < n → i < l.length → (writeFirst v l n).getD i d = v := by
  intro l
  induction l with
  | nil => intro n i _ hil; simp at hil
  | cons a t ih =>
    intro n i hin hil
    cases n with
    | zero => exact absurd hin (Nat.not_lt_zero i)
    | succ m =>
      cases i with
      | zero => rfl
      | succ j =>
        simp only [writeFirst, List.getD_cons_succ]
        exact ih m j (Nat.lt_of_succ_lt_succ hin) (Nat.lt_of_succ_lt_succ hil)

/-- A limiter with every bound disabled passes every candidate through
unchanged. -/
theorem SpeedLimiter.limit_of_noLimits (L : SpeedLimiter) (h : L.noLimits = true)
    (v v0 v1 dt : ℚ) : L.limit v v0 v1 dt = v := by
  simp only [SpeedLimiter.noLimits, Bool.and_eq_true, Bool.not_eq_true'] at h
  obtain ⟨⟨hv, ha⟩, hj⟩ := h
  simp [SpeedLimiter.limit, hv, ha, hj]

/-- The position accumulation loop aborts exactly when some index below the
wheel count carries a NaN reading on either side; here the abort
direction. -/
theorem sumPositions_eq_none (left right : List Dbl) :
    ∀ n : ℕ,
      (∃ i, i < n ∧ ((left.getD i (.fin 0)).isnan = true ∨ (right.getD i (.fin 0)).isnan = true)) →
      sumPositions left right n = none := by
  intro n
  induction n with
  | zero => rintro ⟨i, hi, _⟩; exact absurd hi (Nat.not_lt_zero i)
  | succ m ih =>
    rintro ⟨i, hi, hnan⟩
    by_cases him : i < m
    · simp [sumPositions, ih ⟨i, him, hnan⟩]
    · have hieq : i = m := Nat.eq_of_lt_succ_of_not_lt hi him
      subst hieq
      simp only [sumPositions]
      cases sumPositions left right i with
      | none => rfl
      | some p =>
        rcases hnan with h | h <;> simp only [h, Bool.true_or, Bool.or_true, if_true]

/-- Writing into the first zero slots changes nothing. -/
theorem writeFirst_zero (v : ℚ) (l : List ℚ) : writeFirst v l 0 = l := by
  cases l <;> rfl

/-- The halt performed after a reset is a no-op, since the reset released
every handle. -/
theorem halt_reset (s : State) : halt (reset s) = reset s := by
  simp [halt, reset, writeFirst_zero, setOpModeVal]

/-- Reset is idempotent. -/
theorem reset_reset (s : State) : reset (reset s) = reset s := rfl

/-- Claim C1 counterexample: the claim says cleanup, error and shutdown all halt the wheels
before releasing the handles; the source's on error path releases handles
without halting, so a registered wheel keeps its previous nonzero command
through on error. Concretely: a state whose single registered left wheel
carries command 5 still carries 5 after on error. -/
theorem C1_cex :
    (on_error nonzeroCmdState).2.hw.leftCmd.getD 0 0 = 5 ∧
      nonzeroCmdState.regLeft = 1 ∧ (5 : ℚ) ≠ 0 := by
  refine ⟨rfl, rfl, by norm_num⟩

/-- Claim C1 (amended): cleanup and shutdown write a zero command through every
registered wheel handle and release all handles; error releases all handles
and resets state but performs no wheel write; all three report success and
are idempotent. -/
theorem C1_thm (s : State) :
    ((on_cleanup s).1 = .success ∧ (on_shutdown s).1 = .success ∧ (on_error s).1 = .success) ∧
    (∀ i, i < s.regLeft → i < s.hw.leftCmd.length →
      (on_cleanup s).2.hw.leftCmd.getD i 1 = 0 ∧ (on_shutdown s).2.hw.leftCmd.getD i 1 = 0) ∧
    (∀ i, i < s.regRight → i < s.hw.rightCmd.length →
      (on_cleanup s).2.hw.rightCmd.getD i 1 = 0 ∧ (on_shutdown s).2.hw.rightCmd.getD i 1 = 0) ∧
    ((on_cleanup s).2.regLeft = 0 ∧ (on_cleanup s).2.regRight = 0 ∧ (on_cleanup s).2.regOp = 0) ∧
    ((on_shutdown s).2.regLeft = 0 ∧ (on_shutdown s).2.regRight = 0 ∧
      (on_shutdown s).2.regOp = 0) ∧
    ((on_error s).2.regLeft = 0 ∧ (on_error s).2.regRight = 0 ∧ (on_error s).2.regOp = 0 ∧
      (on_error s).2.hw = s.hw) ∧
    (on_cleanup (on_cleanup s).2 = on_cleanup s ∧ on_shutdown (on_shutdown s).2 = on_shutdown s ∧
      on_error (on_error s).2 = on_error s) := by
  refine ⟨⟨rfl, rfl, rfl⟩, ?_, ?_, ⟨rfl, rfl, rfl⟩, ⟨rfl, rfl, rfl⟩, ⟨rfl, rfl, rfl, rfl⟩,
    ?_, ?_, rfl⟩
  case refine_3 =>
    show (CallbackReturn.success, reset (halt (reset (halt s)))) = (.success, reset (halt s))
    rw [halt_reset, reset_reset]
  case refine_4 =>
    show (CallbackReturn.success, reset (halt (reset (halt s)))) = (.success, reset (halt s))
    rw [halt_reset, reset_reset]
  · intro i hin hil
    exact ⟨writeFirst_getD 0 1 s.hw.leftCmd s.regLeft i hin hil,
      writeFirst_getD 0 1 s.hw.leftCmd s.regLeft i hin hil⟩
  · intro i hin hil
    exact ⟨writeFirst_getD 0 1 s.hw.rightCmd s.regRight i hin hil,
      writeFirst_getD 0 1 s.hw.rightCmd s.regRight i hin hil⟩

/-- Claim C1 witness: at the concrete nonzero-command state, cleanup zeroes the
registered left wheel and releases the handles. -/
theorem C1_wit :
    (0 : ℕ) < nonzeroCmdState.regLeft ∧
      (on_cleanup nonzeroCmdState).2.hw.leftCmd.getD 0 1 = 0 ∧
      (on_cleanup nonzeroCmdState).2.regLeft = 0 :=
  ⟨by norm_num [nonzeroCmdState, baseState],
    ((C1_thm nonzeroCmdState).2.1 0 (by norm_num [nonzeroCmdState, baseState])
      (by norm_num [nonzeroCmdState, baseState])).1,
    (C1_thm nonzeroCmdState).2.2.2.1.1⟩

/-- Claim C3 counterexample: the claim says every transition out of the active state, deactivate
included, resets the odometry; the source's on deactivate only halts, so a
pose away from the origin survives deactivation. -/
theorem C3_cex :
    (on_deactivate poseOneState).2.odometry.x = 1 ∧ (1 : ℝ) ≠ 0 :=
  ⟨rfl, one_ne_zero⟩

/-- Claim C3 (amended): cleanup, error and shutdown reset the odometry to the
origin with a zero velocity estimate via resetOdometry; deactivate halts the
wheels but leaves the odometry untouched. -/
theorem C3_thm (s : State) (o : Odometry) :
    (on_cleanup s).2.odometry = s.odometry.resetOdometry ∧
    (on_error s).2.odometry = s.odometry.resetOdometry ∧
    (on_shutdown s).2.odometry = s.odometry.resetOdometry ∧
    (on_deactivate s).2.odometry = s.odometry ∧
    (o.resetOdometry.x = 0 ∧ o.resetOdometry.y = 0 ∧ o.resetOdometry.heading = 0 ∧
      o.resetOdometry.linear = 0 ∧ o.resetOdometry.angular = 0) :=
  ⟨rfl, rfl, rfl, rfl, rfl, rfl, rfl, rfl, rfl⟩

/-- Claim C2 counterexample: the claim says any non-finite reading aborts the cycle with an
error; the source only guards against NaN, so a positive-infinity reading
passes the guard and the cycle completes with success and an advanced
previous-cycle timestamp. -/
theorem C2_cex :
    (update 7 infReadingState).1 = Ret.success ∧ Ret.success ≠ Ret.error ∧
      (update 7 infReadingState).2.1.previousUpdateTimestamp = 7 ∧
      infReadingState.previousUpdateTimestamp = 0 ∧ (7 : ℚ) ≠ 0 := by
  refine ⟨rfl, by simp, rfl, rfl, by norm_num⟩

/-- Claim C2 (amended): in an active closed-loop cycle, a NaN position reading on
either side at any wheel index makes update return an error with the state
left exactly as it was (no pose integration, no command history shift, no
timestamp advance, no wheel write) and an empty cycle trace; an infinite
(non-NaN) reading is not caught by this guard. -/
theorem C2_thm (now : ℚ) (s : State) (hact : s.lifecycle = .active)
    (hcl : s.odomParams.openLoop = false)
    (hnan : ∃ i, i < s.wheelParams.wheelsPerSide ∧
      ((s.hw.leftPos.getD i (.fin 0)).isnan = true ∨
        (s.hw.rightPos.getD i (.fin 0)).isnan = true)) :
    update now s = (.error, s, []) := by
  have hsum : sumPositions s.hw.leftPos s.hw.rightPos s.wheelParams.wheelsPerSide = none :=
    sumPositions_eq_none s.hw.leftPos s.hw.rightPos s.wheelParams.wheelsPerSide hnan
  have hrm : readMeans s.hw.leftPos s.hw.rightPos s.wheelParams.wheelsPerSide = none := by
    simp [readMeans, hsum]
  simp [update, hact, hcl, hrm]

/-- Claim C2 witness: the concrete NaN-reading state aborts atomically. -/
theorem C2_wit : update 3 nanReadingState = (.error, nanReadingState, []) :=
  C2_thm 3 nanReadingState rfl rfl ⟨0, by norm_num [nanReadingState, baseState], Or.inl rfl⟩

/-- Claim C7: outside the active lifecycle state update returns success; on the
first such cycle it halts (zero written through every registered wheel
handle, operation mode forced ACTIVE whenever an operation mode handle is
registered, halted flag raised) and on every later consecutive inactive
cycle the state is returned untouched with no hardware write and an empty
trace; on activate clears the halted flag. -/
theorem C7_thm (now now2 : ℚ) (s : State) (h : s.lifecycle ≠ .active) :
    (update now s).1 = .success ∧
    (s.isHalted = true → (update now s).2.1 = s ∧ (update now s).2.2 = []) ∧
    (s.isHalted = false →
      (update now s).2.1.isHalted = true ∧
      (∀ i, i < s.regLeft → i < s.hw.leftCmd.length →
        (update now s).2.1.hw.leftCmd.getD i 1 = 0) ∧
      (∀ i, i < s.regRight → i < s.hw.rightCmd.length →
        (update now s).2.1.hw.rightCmd.getD i 1 = 0) ∧
      (s.regOp ≠ 0 → (update now s).2.1.hw.opMode = .active)) ∧
    update now2 (update now s).2.1 = (.success, (update now s).2.1, []) ∧
    (on_activate s).2.isHalted = false := by
  by_cases hh : s.isHalted = true
  · have hu : update now s = (.success, s, []) := by simp [update, h, hh]
    rw [hu]
    exact ⟨rfl, fun _ => ⟨rfl, rfl⟩, fun hc => absurd hh (by simp [hc]), by simp [update, h, hh],
      rfl⟩
  · have hu : update now s = (.success, { halt s with isHalted := true }, haltEvents s) := by
      simp [update, h, hh]
    rw [hu]
    refine ⟨rfl, fun hc => absurd hc hh, fun _ => ⟨rfl, ?_, ?_, ?_⟩, ?_, rfl⟩
    · intro i hin hil
      exact writeFirst_getD 0 1 s.hw.leftCmd s.regLeft i hin hil
    · intro i hin hil
      exact writeFirst_getD 0 1 s.hw.rightCmd s.regRight i hin hil
    · intro hop
      show setOpModeVal s.regOp s.hw.opMode .active = .active
      simp [setOpModeVal, hop]
    · have hl : (halt s).lifecycle = s.lifecycle := rfl
      simp [update, hl, h]

/-- Claim C7 witness: the concrete inactive state gets halted once and then left
alone. -/
theorem C7_wit :
    (update 1 inactiveState).1 = .success ∧
      (update 1 inactiveState).2.1.isHalted = true ∧
      (update 1 inactiveState).2.1.hw.leftCmd.getD 0 1 = 0 ∧
      update 2 (update 1 inactiveState).2.1 = (.success, (update 1 inactiveState).2.1, []) := by
  have h := C7_thm 1 2 inactiveState (by simp [inactiveState, baseState])
  have hh : inactiveState.isHalted = false := rfl
  refine ⟨h.1, (h.2.2.1 hh).1, ?_, h.2.2.2.1⟩
  exact (h.2.2.1 hh).2.1 0 (by norm_num [inactiveState, baseState])
    (by norm_num [inactiveState, baseState])

/-- Shared shape of a completed active cycle: whenever the lifecycle is
active and the sensor path does not abort (open loop, or a NaN-free reading
set), update returns success, integrates some odometry state, writes the
mixed velocities of the limited command into the first wheels-per-side
hardware slots of each side, forces operation mode ACTIVE through the
registered handles, shifts the command history and advances the timestamp,
with the cycle trace in source order. -/
theorem update_active (now : ℚ) (s : State) (hact : s.lifecycle = .active)
    (hok : s.odomParams.openLoop = true ∨
      (readMeans s.hw.leftPos s.hw.rightPos s.wheelParams.wheelsPerSide).isSome = true) :
    ∃ o2 : Odometry,
      update now s =
        (.success,
          { s with
            odometry := o2
            hw :=
              { s.hw with
                leftCmd :=
                  writeFirst
                    (((limitedCommand now s).lin -
                        (limitedCommand now s).ang *
                          (s.wheelParams.separationMultiplier * s.wheelParams.separation) / 2) /
                      (s.wheelParams.leftRadiusMultiplier * s.wheelParams.radius))
                    s.hw.leftCmd s.wheelParams.wheelsPerSide
                rightCmd :=
                  writeFirst
                    (((limitedCommand now s).lin +
                        (limitedCommand now s).ang *
                          (s.wheelParams.separationMultiplier * s.wheelParams.separation) / 2) /
                      (s.wheelParams.rightRadiusMultiplier * s.wheelParams.radius))
                    s.hw.rightCmd s.wheelParams.wheelsPerSide
                opMode := setOpModeVal s.regOp s.hw.opMode .active }
            last1Cmd := s.last0Cmd
            last0Cmd := limitedCommand now s
            previousUpdateTimestamp := now },
          [.odomUpdate, .cmdRead] ++ writeCycleEvents s.wheelParams.wheelsPerSide ++
            [.opModeSet]) := by
  by_cases ho : s.odomParams.openLoop = true
  · refine ⟨s.odometry.updateOpenLoop s.last0Cmd.lin s.last0Cmd.ang now, ?_⟩
    simp [update, hact, ho]
  · have ho' : s.odomParams.openLoop = false := by
      cases hb : s.odomParams.openLoop
      · rfl
      · exact absurd hb ho
    rcases hok with hol | hcl
    · exact absurd hol ho
    · obtain ⟨⟨lm, rm⟩, hp⟩ := Option.isSome_iff_exists.mp hcl
      refine ⟨s.odometry.updateFromWheels lm.toRealLossy rm.toRealLossy now, ?_⟩
      simp [update, hact, ho', hp]

/-- Claim C8: within one completed active cycle the odometry update is the first
event, the command channel read is the second, every wheel command write
occurs strictly after both, and each wheel of both sides below the
wheels-per-side count is indeed written. -/
theorem C8_thm (now : ℚ) (s : State) (hact : s.lifecycle = .active)
    (hok : s.odomParams.openLoop = true ∨
      (readMeans s.hw.leftPos s.hw.rightPos s.wheelParams.wheelsPerSide).isSome = true) :
    (update now s).2.2[0]? = some .odomUpdate ∧
    (update now s).2.2[1]? = some .cmdRead ∧
    (∀ j e, (update now s).2.2[j]? = some e → e.isWheelWrite = true → 2 ≤ j) ∧
    (∀ i, i < s.wheelParams.wheelsPerSide →
      Ev.wheelWrite .left i ∈ (update now s).2.2 ∧
        Ev.wheelWrite .right i ∈ (update now s).2.2) := by
  obtain ⟨o2, hu⟩ := update_active now s hact hok
  rw [hu]
  refine ⟨by simp, by simp, ?_, ?_⟩
  · intro j e hj hw
    match j with
    | 0 =>
      simp only [List.cons_append, List.getElem?_cons_zero, Option.some.injEq] at hj
      rw [← hj] at hw
      simp [Ev.isWheelWrite] at hw
    | 1 =>
      simp only [List.cons_append, List.getElem?_cons_succ, List.getElem?_cons_zero,
        Option.some.injEq] at hj
      rw [← hj] at hw
      simp [Ev.isWheelWrite] at hw
    | (j + 2) => omega
  · intro i hi
    constructor <;> simp [writeCycleEvents, List.mem_flatMap, List.mem_range] <;> exact hi

/-- Claim C8 witness: the concrete mixer state produces the ordered trace. -/
theorem C8_wit :
    (update 0 mixStateA).2.2[0]? = some .odomUpdate ∧
      (update 0 mixStateA).2.2[1]? = some .cmdRead ∧
      Ev.wheelWrite .left 0 ∈ (update 0 mixStateA).2.2 := by
  have h := C8_thm 0 mixStateA rfl (Or.inr rfl)
  exact ⟨h.1, h.2.1, (h.2.2.2 0 (by norm_num [mixStateA, baseState])).1⟩

/-- Claim C6: in every completed active cycle, every wheel slot of a side below
the wheels-per-side count is written the same value, namely the mixer
formula applied to this cycle's limited command and the effective kinematic
parameters: left gets (linear minus angular times separation over two) over
the left radius, right gets the sum variant over the right radius. -/
theorem C6_thm (now : ℚ) (s : State) (hact : s.lifecycle = .active)
    (hok : s.odomParams.openLoop = true ∨
      (readMeans s.hw.leftPos s.hw.rightPos s.wheelParams.wheelsPerSide).isSome = true)
    (hlenL : s.wheelParams.wheelsPerSide ≤ s.hw.leftCmd.length)
    (hlenR : s.wheelParams.wheelsPerSide ≤ s.hw.rightCmd.length) :
    ∀ i, i < s.wheelParams.wheelsPerSide →
      (update now s).2.1.hw.leftCmd.getD i 1 =
        ((limitedCommand now s).lin -
            (limitedCommand now s).ang *
              (s.wheelParams.separationMultiplier * s.wheelParams.separation) / 2) /
          (s.wheelParams.leftRadiusMultiplier * s.wheelParams.radius) ∧
      (update now s).2.1.hw.rightCmd.getD i 1 =
        ((limitedCommand now s).lin +
            (limitedCommand now s).ang *
              (s.wheelParams.separationMultiplier * s.wheelParams.separation) / 2) /
          (s.wheelParams.rightRadiusMultiplier * s.wheelParams.radius) := by
  obtain ⟨o2, hu⟩ := update_active now s hact hok
  rw [hu]
  intro i hi
  exact ⟨writeFirst_getD _ 1 s.hw.leftCmd s.wheelParams.wheelsPerSide i hi
      (lt_of_lt_of_le hi hlenL),
    writeFirst_getD _ 1 s.hw.rightCmd s.wheelParams.wheelsPerSide i hi
      (lt_of_lt_of_le hi hlenR)⟩

/-- Claim C6 witness: both spec scenarios at separation one half and radius one
tenth: a fresh (1, 0) command mixes to 10 on both sides, a fresh (0, 1)
command mixes to minus five halves left and five halves right. -/
theorem C6_wit :
    (update 0 mixStateA).2.1.hw.leftCmd.getD 0 1 = 10 ∧
      (update 0 mixStateA).2.1.hw.rightCmd.getD 0 1 = 10 ∧
      (update 0 mixStateB).2.1.hw.leftCmd.getD 0 1 = -(5/2) ∧
      (update 0 mixStateB).2.1.hw.rightCmd.getD 0 1 = 5/2 := by
  have ha := C6_thm 0 mixStateA rfl (Or.inr rfl) (by norm_num [mixStateA, baseState])
    (by norm_num [mixStateA, baseState]) 0 (by norm_num [mixStateA, baseState])
  have hb := C6_thm 0 mixStateB rfl (Or.inr rfl) (by norm_num [mixStateB, mixStateA, baseState])
    (by norm_num [mixStateB, mixStateA, baseState]) 0
    (by norm_num [mixStateB, mixStateA, baseState])
  refine ⟨?_, ?_, ?_, ?_⟩
  · rw [ha.1]
    norm_num [limitedCommand, staleZeroed, SpeedLimiter.limit, mixStateA, baseState, limiterOff]
  · rw [ha.2]
    norm_num [limitedCommand, staleZeroed, SpeedLimiter.limit, mixStateA, baseState, limiterOff]
  · rw [hb.1]
    norm_num [limitedCommand, staleZeroed, SpeedLimiter.limit, mixStateB, mixStateA, baseState,
      limiterOff]
  · rw [hb.2]
    norm_num [limitedCommand, staleZeroed, SpeedLimiter.limit, mixStateB, mixStateA, baseState,
      limiterOff]

/-- Claim C5 counterexample: the claim says a stale command makes both wheel velocities resolve
to 0 regardless of the stored command; with an enabled acceleration bound
the zeroed candidate is reshaped toward the previous limited command, so
the written wheel velocity is 4, not 0, at the concrete stale state. -/
theorem C5_cex :
    staleAccelState.lifecycle = .active ∧
      (10 : ℚ) - staleAccelState.commandBuffer.stamp > staleAccelState.cmdVelTimeout ∧
      (update 10 staleAccelState).2.1.hw.leftCmd.getD 0 1 = 4 ∧ (4 : ℚ) ≠ 0 := by
  have h4 : (update 10 staleAccelState).2.1.hw.leftCmd = [4] := by
    norm_num [update, staleAccelState, baseState, accelOnlyLimiter, limiterOff, limitedCommand,
      staleZeroed, SpeedLimiter.limit, clampQ, writeFirst, setOpModeVal]
  exact ⟨rfl, by norm_num [staleAccelState, baseState], by rw [h4]; rfl, by norm_num⟩

/-- Claim C5 (amended): in every completed active cycle whose stored command is
stale, update returns success, the command channel's stored value is not
overwritten, the limiter is fed linear 0 and angular 0 in place of the
stored command (so the applied command is independent of the stored
magnitude), and when no limiter bound is enabled both written wheel
velocities are exactly 0. -/
theorem C5_thm (now : ℚ) (s : State) (hact : s.lifecycle = .active)
    (hok : s.odomParams.openLoop = true ∨
      (readMeans s.hw.leftPos s.hw.rightPos s.wheelParams.wheelsPerSide).isSome = true)
    (hstale : now - s.commandBuffer.stamp > s.cmdVelTimeout)
    (hlenL : s.wheelParams.wheelsPerSide ≤ s.hw.leftCmd.length)
    (hlenR : s.wheelParams.wheelsPerSide ≤ s.hw.rightCmd.length) :
    (update now s).1 = .success ∧
    (update now s).2.1.commandBuffer = s.commandBuffer ∧
    (limitedCommand now s).lin =
      s.limiterLinear.limit 0 s.last0Cmd.lin s.last1Cmd.lin (now - s.previousUpdateTimestamp) ∧
    (limitedCommand now s).ang =
      s.limiterAngular.limit 0 s.last0Cmd.ang s.last1Cmd.ang (now - s.previousUpdateTimestamp) ∧
    (s.limiterLinear.noLimits = true → s.limiterAngular.noLimits = true →
      ∀ i, i < s.wheelParams.wheelsPerSide →
        (update now s).2.1.hw.leftCmd.getD i 1 = 0 ∧
          (update now s).2.1.hw.rightCmd.getD i 1 = 0) := by
  obtain ⟨o2, hu⟩ := update_active now s hact hok
  have hz : staleZeroed now s.commandBuffer s.cmdVelTimeout =
      { s.commandBuffer with lin := 0, ang := 0 } := by
    simp [staleZeroed, hstale]
  have hlin : (limitedCommand now s).lin =
      s.limiterLinear.limit 0 s.last0Cmd.lin s.last1Cmd.lin (now - s.previousUpdateTimestamp) := by
    simp [limitedCommand, hz]
  have hang : (limitedCommand now s).ang =
      s.limiterAngular.limit 0 s.last0Cmd.ang s.last1Cmd.ang (now - s.previousUpdateTimestamp) := by
    simp [limitedCommand, hz]
  refine ⟨by rw [hu], by rw [hu], hlin, hang, ?_⟩
  intro hnl hna i hi
  have hl0 : (limitedCommand now s).lin = 0 := by
    rw [hlin, SpeedLimiter.limit_of_noLimits s.limiterLinear hnl]
  have ha0 : (limitedCommand now s).ang = 0 := by
    rw [hang, SpeedLimiter.limit_of_noLimits s.limiterAngular hna]
  rw [hu]
  constructor
  · rw [writeFirst_getD _ 1 s.hw.leftCmd s.wheelParams.wheelsPerSide i hi
      (lt_of_lt_of_le hi hlenL), hl0, ha0]
    ring_nf
  · rw [writeFirst_getD _ 1 s.hw.rightCmd s.wheelParams.wheelsPerSide i hi
      (lt_of_lt_of_le hi hlenR), hl0, ha0]
    ring_nf

/-- Claim C5 witness: at a stale state with limiting disabled both wheels are
written 0 and the channel keeps its stored value. -/
theorem C5_wit :
    (update 10 { staleAccelState with limiterLinear := limiterOff }).1 = .success ∧
      (update 10 { staleAccelState with limiterLinear := limiterOff }).2.1.commandBuffer =
        staleAccelState.commandBuffer ∧
      (update 10 { staleAccelState with limiterLinear := limiterOff }).2.1.hw.leftCmd.getD 0 1 =
        0 := by
  have h := C5_thm 10 { staleAccelState with limiterLinear := limiterOff } rfl (Or.inl rfl)
    (by norm_num [staleAccelState, baseState]) (by norm_num [staleAccelState, baseState])
    (by norm_num [staleAccelState, baseState])
  exact ⟨h.1, h.2.1, (h.2.2.2.2 rfl rfl 0 (by norm_num [staleAccelState, baseState])).1⟩

/-- Claim C10 counterexample: the claim says the history shifted at the end of a stale cycle
makes the next cycle start from zero; with an enabled acceleration bound
the shifted value is the limited zeroed command, 8 rather than 0, at the
concrete stale state. -/
theorem C10_cex :
    staleAccelState2.lifecycle = .active ∧
      (10 : ℚ) - staleAccelState2.commandBuffer.stamp > staleAccelState2.cmdVelTimeout ∧
      (update 10 staleAccelState2).2.1.last0Cmd.lin = 8 ∧ (8 : ℚ) ≠ 0 := by
  refine ⟨rfl, by norm_num [staleAccelState2, baseState], ?_, by norm_num⟩
  norm_num [update, staleAccelState2, baseState, accelOnlyLimiter, limiterOff, limitedCommand,
    staleZeroed, SpeedLimiter.limit, clampQ]

/-- Claim C10 (amended): at the end of every completed stale active cycle the
retained history receives the zeroed-then-limited command, not the channel's
stored value: prev-last becomes the old last, last becomes the limiter
output at candidate 0, and the channel is unchanged; when no limiter bound
is enabled that shifted command is exactly zero, so the next cycle's
limiter seeding and open-loop integration start from zero. -/
theorem C10_thm (now : ℚ) (s : State) (hact : s.lifecycle = .active)
    (hok : s.odomParams.openLoop = true ∨
      (readMeans s.hw.leftPos s.hw.rightPos s.wheelParams.wheelsPerSide).isSome = true)
    (hstale : now - s.commandBuffer.stamp > s.cmdVelTimeout) :
    (update now s).2.1.last1Cmd = s.last0Cmd ∧
    (update now s).2.1.last0Cmd = limitedCommand now s ∧
    (limitedCommand now s).lin =
      s.limiterLinear.limit 0 s.last0Cmd.lin s.last1Cmd.lin (now - s.previousUpdateTimestamp) ∧
    (limitedCommand now s).ang =
      s.limiterAngular.limit 0 s.last0Cmd.ang s.last1Cmd.ang (now - s.previousUpdateTimestamp) ∧
    (update now s).2.1.commandBuffer = s.commandBuffer ∧
    (s.limiterLinear.noLimits = true → s.limiterAngular.noLimits = true →
      (update now s).2.1.last0Cmd.lin = 0 ∧ (update now s).2.1.last0Cmd.ang = 0) := by
  obtain ⟨o2, hu⟩ := update_active now s hact hok
  have hz : staleZeroed now s.commandBuffer s.cmdVelTimeout =
      { s.commandBuffer with lin := 0, ang := 0 } := by
    simp [staleZeroed, hstale]
  have hlin : (limitedCommand now s).lin =
      s.limiterLinear.limit 0 s.last0Cmd.lin s.last1Cmd.lin (now - s.previousUpdateTimestamp) := by
    simp [limitedCommand, hz]
  have hang : (limitedCommand now s).ang =
      s.limiterAngular.limit 0 s.last0Cmd.ang s.last1Cmd.ang (now - s.previousUpdateTimestamp) := by
    simp [limitedCommand, hz]
  refine ⟨by rw [hu], by rw [hu], hlin, hang, by rw [hu], ?_⟩
  intro hnl hna
  have h0 : (update now s).2.1.last0Cmd = limitedCommand now s := by rw [hu]
  rw [h0, hlin, hang, SpeedLimiter.limit_of_noLimits s.limiterLinear hnl,
    SpeedLimiter.limit_of_noLimits s.limiterAngular hna]
  exact ⟨rfl, rfl⟩

/-- Claim C10 witness: with limiting disabled the stale cycle shifts an exact
zero command into the retained history while the channel keeps its value. -/
theorem C10_wit :
    (update 10 { staleAccelState2 with limiterLinear := limiterOff }).2.1.last0Cmd.lin = 0 ∧
      (update 10 { staleAccelState2 with limiterLinear := limiterOff }).2.1.last1Cmd =
        staleAccelState2.last0Cmd ∧
      (update 10 { staleAccelState2 with limiterLinear := limiterOff }).2.1.commandBuffer =
        staleAccelState2.commandBuffer := by
  have h := C10_thm 10 { staleAccelState2 with limiterLinear := limiterOff } rfl (Or.inl rfl)
    (by norm_num [staleAccelState2, baseState])
  exact ⟨(h.2.2.2.2.2 rfl rfl).1, h.1, h.2.2.2.2.1⟩

/-- Claim C4 counterexample: the claim says configure fails on any non-positive resolved
kinematic value; the source never validates positivity, so configure with a
separation parameter of minus one (nonzero, hence no urdf lookup) succeeds
and leaves a negative resolved separation. -/
theorem C4_cex :
    (on_configure cfgNegSep envNone hwOk 0 baseState).isSuccess = true ∧
      cfgResolvedSeparation (on_configure cfgNegSep envNone hwOk 0 baseState) = some (-1) ∧
      ¬(0 : ℚ) < -1 := by
  refine ⟨?_, ?_, by norm_num⟩
  · norm_num [on_configure, cfgNegSep, envNone, hwOk, baseState, set_odom_params_from_urdf,
      configure_side, reset, setOpModeVal, CfgOutcome.isSuccess]
    rfl
  · norm_num [cfgResolvedSeparation, on_configure, cfgNegSep, envNone, hwOk, baseState,
      set_odom_params_from_urdf, configure_side, reset, setOpModeVal, CfgOutcome.state?]
    exact ⟨_, rfl, by norm_num⟩

/-- Claim C4 (amended): configure performs no positivity validation; the resolved
values are strictly positive whenever the raw parameters and multipliers
are, and a zero radius triggers urdf resolution which fails (configuration
failure, controller not activatable) when the robot description is not
retrievable. -/
theorem C4_thm (p : ConfigParams) (env : UrdfEnv) (hw : RobotHw) (now : ℚ) (s : State) :
    (0 < p.wheelSeparation → 0 < p.wheelRadius → 0 < p.wheelSeparationMultiplier →
      0 < p.leftWheelRadiusMultiplier → 0 < p.rightWheelRadiusMultiplier →
      (∀ q ∈ cfgResolvedSeparation (on_configure p env hw now s), 0 < q) ∧
      (∀ q ∈ cfgResolvedLeftRadius (on_configure p env hw now s), 0 < q) ∧
      (∀ q ∈ cfgResolvedRightRadius (on_configure p env hw now s), 0 < q)) ∧
    (p.wheelRadius = 0 → env.hasDescription = false → p.leftWheelNames ≠ [] →
      p.rightWheelNames ≠ [] → on_configure p env hw now s = .failure) := by
  constructor
  · intro h1 h2 h3 h4 h5
    have hs0 : (p.wheelSeparation == 0) = false := beq_eq_false_iff_ne.mpr (ne_of_gt h1)
    have hr0 : (p.wheelRadius == 0) = false := beq_eq_false_iff_ne.mpr (ne_of_gt h2)
    simp only [on_configure, hs0, hr0, set_odom_params_from_urdf, Bool.or_self, Bool.not_false,
      if_true]
    repeat' split
    all_goals
      simp only [cfgResolvedSeparation, cfgResolvedLeftRadius, cfgResolvedRightRadius,
        CfgOutcome.state?, Option.map_none', Option.map_some', Option.mem_def,
        Option.some.injEq]
    all_goals
      try exact ⟨fun q h => absurd h (by simp), fun q h => absurd h (by simp),
        fun q h => absurd h (by simp)⟩
    refine ⟨fun q hq => ?_, fun q hq => ?_, fun q hq => ?_⟩
    · rw [← hq]; exact mul_pos h3 h1
    · rw [← hq]; exact mul_pos h4 h2
    · rw [← hq]; exact mul_pos h5 h2
  · intro hr hd hL hR
    obtain ⟨a, ha⟩ : ∃ a, p.leftWheelNames.head? = some a := by
      cases hpl : p.leftWheelNames with
      | nil => exact absurd hpl hL
      | cons a t => exact ⟨a, by simp⟩
    obtain ⟨b, hb⟩ : ∃ b, p.rightWheelNames.head? = some b := by
      cases hpr : p.rightWheelNames with
      | nil => exact absurd hpr hR
      | cons b t => exact ⟨b, by simp⟩
    have hr0 : (p.wheelRadius == 0) = true := by simp [hr]
    simp [on_configure, ha, hb, hr0, set_odom_params_from_urdf, hd]

/-- Claim C4 witness: strictly positive raw parameters give strictly positive
resolved values on the success outcome, and the zero-radius configuration
with no retrievable description fails. -/
theorem C4_wit :
    (∀ q ∈ cfgResolvedSeparation (on_configure cfgPos envNone hwOk 0 baseState), 0 < q) ∧
      on_configure cfgZeroRad envNone hwOk 0 baseState = .failure := by
  refine ⟨((C4_thm cfgPos envNone hwOk 0 baseState).1 (by norm_num [cfgPos, cfgNegSep])
    (by norm_num [cfgPos, cfgNegSep]) (by norm_num [cfgPos, cfgNegSep])
    (by norm_num [cfgPos, cfgNegSep]) (by norm_num [cfgPos, cfgNegSep])).1, ?_⟩
  exact (C4_thm cfgZeroRad envNone hwOk 0 baseState).2 (by norm_num [cfgZeroRad, cfgNegSep]) rfl
    (by simp [cfgZeroRad, cfgNegSep]) (by simp [cfgZeroRad, cfgNegSep])

/-- Claim C9: on configure indexes element 0 of both wheel name lists before any
emptiness or size validation, so an empty left or right list reaches the
unchecked subscript (the explicit ub outcome) and never any guarded error
branch, while non-empty lists never produce the ub outcome. -/
theorem C9_thm (p : ConfigParams) (env : UrdfEnv) (hw : RobotHw) (now : ℚ) (s : State) :
    (p.leftWheelNames = [] ∨ p.rightWheelNames = [] →
      on_configure p env hw now s = .ubEmptyWheelList) ∧
    (p.leftWheelNames ≠ [] → p.rightWheelNames ≠ [] →
      on_configure p env hw now s ≠ .ubEmptyWheelList) := by
  constructor
  · rintro (h | h)
    · have hh : p.leftWheelNames.head? = none := by simp [h]
      simp [on_configure, hh]
    · have hh : p.rightWheelNames.head? = none := by simp [h]
      cases hL : p.leftWheelNames.head? <;> simp [on_configure, hL, hh]
  · intro hL hR
    obtain ⟨a, ha⟩ : ∃ a, p.leftWheelNames.head? = some a := by
      cases hpl : p.leftWheelNames with
      | nil => exact absurd hpl hL
      | cons a t => exact ⟨a, by simp⟩
    obtain ⟨b, hb⟩ : ∃ b, p.rightWheelNames.head? = some b := by
      cases hpr : p.rightWheelNames with
      | nil => exact absurd hpr hR
      | cons b t => exact ⟨b, by simp⟩
    simp only [on_configure, ha, hb]
    repeat' split
    all_goals simp

/-- Claim C9 witness: the empty left list reaches the unchecked subscript, while
the well-formed parameters never do. -/
theorem C9_wit :
    on_configure cfgEmptyLeft envNone hwOk 0 baseState = .ubEmptyWheelList ∧
      on_configure cfgNegSep envNone hwOk 0 baseState ≠ .ubEmptyWheelList :=
  ⟨(C9_thm cfgEmptyLeft envNone hwOk 0 baseState).1 (Or.inl rfl),
    (C9_thm cfgNegSep envNone hwOk 0 baseState).2 (by simp [cfgNegSep]) (by simp [cfgNegSep])⟩

end DiffDrive
